import Mathlib

/-!
Shallow embedding of the stroke-prediction form application:
the domain model (`types.ts`), the prediction gateway
(`services/predictionService.ts`, function `predictStrokeRisk`), and the
form controller (`App.tsx`: `validateInputs`, `handleSubmit`,
`handleInputChange`, and the submit button's `disabled={loading}` gate).

Modelling conventions:
* TypeScript numbers are modelled as rationals (`ℚ`); every numeric value
  the claims touch is exactly representable.
* A numeric form field of TypeScript type `number | ''` is modelled as
  `Option ℚ`: `none` is the empty-string sentinel / non-numeric case,
  `some v` a numeric value.
* The sparse error object `Partial<Record<keyof PatientData, string>>` is
  modelled as a total function `FieldName → Option String`; a key that is
  absent or was assigned `undefined` is `none` (both are falsy and
  indistinguishable to every reader in the source).
* The remote `generateContent` call is an external effect; it is modelled
  by its outcome (`RemoteOutcome`): either the promise rejects with a
  thrown value, or it resolves with an optional text payload.
* `JSON.parse` is a platform builtin, modelled by an executable JSON
  parser (`jsonParse`) covering the JSON subset relevant here: objects,
  arrays, strings without escape sequences, numbers without exponents,
  booleans and null.
-/

/-- `Gender` enum from `types.ts`. -/
inductive Gender
  | Male
  | Female
  | Other
deriving DecidableEq

/-- `WorkType` enum from `types.ts`. -/
inductive WorkType
  | Private
  | SelfEmployed
  | GovtJob
  | Children
  | NeverWorked
deriving DecidableEq

/-- `ResidenceType` enum from `types.ts`. -/
inductive ResidenceType
  | Urban
  | Rural
deriving DecidableEq

/-- `SmokingStatus` enum from `types.ts`. -/
inductive SmokingStatus
  | NeverSmoked
  | FormerlySmoked
  | Smokes
  | Unknown
deriving DecidableEq

/-- The `PatientData` record from `types.ts`.  The three numeric fields
have TypeScript type `number | ''`; `none` models the `''` sentinel. -/
structure PatientData where
  gender : Gender
  age : Option ℚ
  hypertension : Bool
  heartDisease : Bool
  everMarried : Bool
  workType : WorkType
  residenceType : ResidenceType
  avgGlucoseLevel : Option ℚ
  bmi : Option ℚ
  smokingStatus : SmokingStatus
deriving DecidableEq

/-- The keys of `PatientData` (`keyof PatientData` in the source). -/
inductive FieldName
  | gender
  | age
  | hypertension
  | heartDisease
  | everMarried
  | workType
  | residenceType
  | avgGlucoseLevel
  | bmi
  | smokingStatus
deriving DecidableEq, Fintype

/-- The error object `Partial<Record<keyof PatientData, string>>`:
a key that is absent (or set to `undefined`) is `none`. -/
abbrev ErrorMap : Type := FieldName → Option String

/-- Model of the assignment `errors.f = msg` on the sparse error object. -/
def setErr (m : ErrorMap) (f : FieldName) (msg : String) : ErrorMap :=
  fun g => if g = f then some msg else m g

/-- `validateInputs` from `App.tsx` (lines 50-83), as a function of the
`formData` it closes over.  It builds a fresh error object and an
`isValid` flag through three independent blocks (age, glucose, BMI) and
returns both; the source additionally stores the error object via
`setValidationErrors`, which the controller model (`runValidate`,
`handleSubmitStart`) performs on the returned map. -/
def validateInputs (d : PatientData) : ErrorMap × Bool :=
  let errors0 : ErrorMap := fun _ => none
  let st1 : ErrorMap × Bool :=
    match d.age with
    | none => (setErr errors0 FieldName.age "Age is required.", false)
    | some v =>
      if v < 0 ∨ v > 120 then
        (setErr errors0 FieldName.age "Please enter a valid age (0-120).", false)
      else (errors0, true)
  let st2 : ErrorMap × Bool :=
    match d.avgGlucoseLevel with
    | none => (setErr st1.1 FieldName.avgGlucoseLevel "Glucose level is required.", false)
    | some v =>
      if v < 30 ∨ v > 600 then
        (setErr st1.1 FieldName.avgGlucoseLevel "Value must be between 30 and 600 mg/dL.", false)
      else st1
  let st3 : ErrorMap × Bool :=
    match d.bmi with
    | none => (setErr st2.1 FieldName.bmi "BMI is required.", false)
    | some v =>
      if v < 10 ∨ v > 100 then
        (setErr st2.1 FieldName.bmi "Value must be between 10 and 100.", false)
      else st2
  st3

/-- The initial `formData` passed to `useState` in `App.tsx` (lines 24-35). -/
def initialFormData : PatientData where
  gender := Gender.Male
  age := none
  hypertension := false
  heartDisease := false
  everMarried := true
  workType := WorkType.Private
  residenceType := ResidenceType.Urban
  avgGlucoseLevel := none
  bmi := none
  smokingStatus := SmokingStatus.NeverSmoked

/-- Scenario A of the spec: age 45, glucose 105.5, BMI 28.4, all enum
fields at their defaults. -/
def scenarioA : PatientData :=
  { initialFormData with
      age := some 45
      avgGlucoseLevel := some (mkRat 211 2)
      bmi := some (mkRat 142 5) }

/-- Scenario B of the spec: age 150, glucose 700, BMI 5 (all out of range). -/
def scenarioB : PatientData :=
  { initialFormData with
      age := some 150
      avgGlucoseLevel := some 700
      bmi := some 5 }

/-- The age block of `validateInputs`, in isolation. -/
def ageCheck : Option ℚ → Option String
  | none => some "Age is required."
  | some v =>
      if v < 0 ∨ v > 120 then some "Please enter a valid age (0-120)." else none

/-- The glucose block of `validateInputs`, in isolation. -/
def glucoseCheck : Option ℚ → Option String
  | none => some "Glucose level is required."
  | some v =>
      if v < 30 ∨ v > 600 then some "Value must be between 30 and 600 mg/dL." else none

/-- The BMI block of `validateInputs`, in isolation. -/
def bmiCheck : Option ℚ → Option String
  | none => some "BMI is required."
  | some v =>
      if v < 10 ∨ v > 100 then some "Value must be between 10 and 100." else none

lemma validateInputs_age (d : PatientData) :
    (validateInputs d).1 FieldName.age = ageCheck d.age := by
  unfold validateInputs ageCheck
  rcases d.age with _ | a <;> rcases d.avgGlucoseLevel with _ | g <;>
    rcases d.bmi with _ | b <;> simp only [setErr] <;> split_ifs <;> simp_all [setErr]

lemma validateInputs_glucose (d : PatientData) :
    (validateInputs d).1 FieldName.avgGlucoseLevel = glucoseCheck d.avgGlucoseLevel := by
  unfold validateInputs glucoseCheck
  rcases d.age with _ | a <;> rcases d.avgGlucoseLevel with _ | g <;>
    rcases d.bmi with _ | b <;> simp only [setErr] <;> split_ifs <;> simp_all [setErr]

lemma validateInputs_bmi (d : PatientData) :
    (validateInputs d).1 FieldName.bmi = bmiCheck d.bmi := by
  unfold validateInputs bmiCheck
  rcases d.age with _ | a <;> rcases d.avgGlucoseLevel with _ | g <;>
    rcases d.bmi with _ | b <;> simp only [setErr] <;> split_ifs <;> simp_all [setErr]

lemma validateInputs_other (d : PatientData) (f : FieldName)
    (h1 : f ≠ FieldName.age) (h2 : f ≠ FieldName.avgGlucoseLevel) (h3 : f ≠ FieldName.bmi) :
    (validateInputs d).1 f = none := by
  unfold validateInputs
  rcases d.age with _ | a <;> rcases d.avgGlucoseLevel with _ | g <;>
    rcases d.bmi with _ | b <;> simp only [setErr] <;> split_ifs <;> simp_all [setErr]

lemma validateInputs_valid (d : PatientData) :
    (validateInputs d).2 =
      ((ageCheck d.age).isNone && (glucoseCheck d.avgGlucoseLevel).isNone &&
        (bmiCheck d.bmi).isNone) := by
  unfold validateInputs ageCheck glucoseCheck bmiCheck
  rcases d.age with _ | a <;> rcases d.avgGlucoseLevel with _ | g <;>
    rcases d.bmi with _ | b <;> simp only [setErr] <;> (try split_ifs) <;>
    simp_all [setErr]

/-- JSON values, as produced by the JavaScript `JSON.parse` builtin. -/
inductive Json
  | null
  | bool (b : Bool)
  | num (q : ℚ)
  | str (s : String)
  | arr (elems : List Json)
  | obj (members : List (String × Json))

/-- The opening-brace character (written by code point to keep JSON text
literals elsewhere free of brace characters). -/
def braceOpen : Char := Char.ofNat 123

/-- The closing-brace character. -/
def braceClose : Char := Char.ofNat 125

/-- Whitespace skipping of the JSON grammar. -/
def skipWs : List Char → List Char
  | [] => []
  | c :: cs =>
    if c = ' ' ∨ c = '\n' ∨ c = '\t' ∨ c = '\r' then skipWs cs else c :: cs

/-- Parse the remainder of a JSON string literal, after the opening quote.
Escape sequences are outside the modelled subset (they are refused). -/
def parseStringRest : List Char → Option (String × List Char)
  | [] => none
  | c :: cs =>
    if c = '"' then some ("", cs)
    else if c = '\\' then none
    else
      match parseStringRest cs with
      | some (s, rest) => some (String.mk (c :: s.data), rest)
      | none => none

/-- Numeric value of a list of decimal digits. -/
def digitsToNat (ds : List Char) : Nat :=
  ds.foldl (fun n c => 10 * n + (c.toNat - 48)) 0

/-- Parse a JSON number (optional minus, digits, optional fraction;
exponents are outside the modelled subset). -/
def parseNumber (cs : List Char) : Option (Json × List Char) :=
  let signed := match cs with
    | '-' :: r => (true, r)
    | _ => (false, cs)
  let intPart := signed.2.takeWhile Char.isDigit
  let rest1 := signed.2.dropWhile Char.isDigit
  if intPart.isEmpty then none
  else
    match rest1 with
    | '.' :: r =>
      let frac := r.takeWhile Char.isDigit
      let rest2 := r.dropWhile Char.isDigit
      if frac.isEmpty then none
      else
        let mag : ℚ :=
          mkRat (digitsToNat intPart * 10 ^ frac.length + digitsToNat frac)
            (10 ^ frac.length)
        some (Json.num (if signed.1 then -mag else mag), rest2)
    | _ =>
      let mag : ℚ := (digitsToNat intPart : ℚ)
      some (Json.num (if signed.1 then -mag else mag), rest1)

mutual

/-- Parse one JSON value; `fuel` bounds the nesting recursion and is
always given at least the input length plus one. -/
def parseValue : Nat → List Char → Option (Json × List Char)
  | 0, _ => none
  | fuel + 1, cs =>
    match skipWs cs with
    | [] => none
    | 't' :: 'r' :: 'u' :: 'e' :: rest => some (Json.bool true, rest)
    | 'f' :: 'a' :: 'l' :: 's' :: 'e' :: rest => some (Json.bool false, rest)
    | 'n' :: 'u' :: 'l' :: 'l' :: rest => some (Json.null, rest)
    | '"' :: rest =>
      match parseStringRest rest with
      | some (s, rest2) => some (Json.str s, rest2)
      | none => none
    | '[' :: rest =>
      match skipWs rest with
      | ']' :: rest2 => some (Json.arr [], rest2)
      | _ =>
        match parseElems fuel rest with
        | some (xs, rest2) => some (Json.arr xs, rest2)
        | none => none
    | c :: rest =>
      if c = braceOpen then
        match skipWs rest with
        | [] => none
        | c2 :: rest2 =>
          if c2 = braceClose then some (Json.obj [], rest2)
          else
            match parseMembers fuel rest with
            | some (kvs, rest3) => some (Json.obj kvs, rest3)
            | none => none
      else if c.isDigit ∨ c = '-' then parseNumber (c :: rest)
      else none

/-- Parse the comma-separated elements of a nonempty JSON array, up to and
including the closing bracket. -/
def parseElems : Nat → List Char → Option (List Json × List Char)
  | 0, _ => none
  | fuel + 1, cs =>
    match parseValue fuel cs with
    | none => none
    | some (j, rest) =>
      match skipWs rest with
      | ',' :: rest2 =>
        match parseElems fuel rest2 with
        | some (xs, rest3) => some (j :: xs, rest3)
        | none => none
      | ']' :: rest2 => some ([j], rest2)
      | _ => none

/-- Parse the members of a nonempty JSON object, up to and including the
closing brace. -/
def parseMembers : Nat → List Char → Option (List (String × Json) × List Char)
  | 0, _ => none
  | fuel + 1, cs =>
    match skipWs cs with
    | '"' :: rest =>
      match parseStringRest rest with
      | none => none
      | some (key, rest2) =>
        match skipWs rest2 with
        | ':' :: rest3 =>
          match parseValue fuel rest3 with
          | none => none
          | some (j, rest4) =>
            match skipWs rest4 with
            | ',' :: rest5 =>
              match parseMembers fuel rest5 with
              | some (kvs, rest6) => some ((key, j) :: kvs, rest6)
              | none => none
            | c :: rest5 => if c = braceClose then some ([(key, j)], rest5) else none
            | [] => none
        | _ => none
    | _ => none

end

/-- The (uniform) message of the modelled `JSON.parse` SyntaxError. -/
def jsonParseErrorMsg : String := "Unexpected token in JSON"

/-- Model of the `JSON.parse` builtin on the modelled subset: parse one
value and require only whitespace to remain; any failure is a SyntaxError,
modelled with the uniform message `jsonParseErrorMsg`. -/
def jsonParse (s : String) : Except String Json :=
  match parseValue (s.length + 1) s.data with
  | some (j, rest) =>
    if skipWs rest = [] then Except.ok j else Except.error jsonParseErrorMsg
  | none => Except.error jsonParseErrorMsg

/-- Values thrown in JavaScript, as far as the gateway distinguishes
them: `new Error(msg)` objects, the SyntaxError thrown by `JSON.parse`,
and any other value rejected by the SDK call. -/
inductive JsError
  | errorObj (msg : String)
  | parseError (msg : String)
  | external (tag : String)
deriving DecidableEq

/-- Outcome of the remote `ai.models.generateContent` call, the only
external effect of the gateway: the returned promise either rejects with
a thrown value or resolves with the optional text payload
`response.text : string | undefined`. -/
inductive RemoteOutcome
  | throws (e : JsError)
  | returns (text : Option String)

/-- JavaScript truthiness of `response.text : string | undefined`:
`undefined` and the empty string are falsy. -/
def textTruthy : Option String → Bool
  | none => false
  | some s => if s = "" then false else true

/-- The message of the error thrown on a missing payload
(`predictionService.ts` line 44). -/
def noResponseMsg : String := "No response from AI model"

/-- `predictStrokeRisk` from `services/predictionService.ts` (lines 6-56),
as a function of the remote call's outcome.  The prompt and response-schema
construction affect only the request sent to the remote service, which the
outcome already summarises; they are not observable in the returned value.
If the call resolves with truthy text, the text is given to `JSON.parse`
and the parsed value is returned (the `as PredictionResult` cast is a
compile-time assertion with no runtime effect, so the result type is the
parsed JSON value); falsy text raises `new Error("No response from AI
model")`.  The catch block logs and re-throws the error unchanged, so
every failure propagates as-is. -/
def predictStrokeRisk (outcome : RemoteOutcome) : Except JsError Json :=
  match outcome with
  | RemoteOutcome.throws e => Except.error e
  | RemoteOutcome.returns t =>
    if textTruthy t then
      match jsonParse (t.getD "") with
      | Except.ok j => Except.ok j
      | Except.error m => Except.error (JsError.parseError m)
    else Except.error (JsError.errorObj noResponseMsg)

/-- The `riskLevel` union type of `types.ts`. -/
inductive RiskLevel
  | low
  | moderate
  | high
deriving DecidableEq

/-- The `PredictionResult` interface from `types.ts`. -/
structure PredictionResult where
  strokePrediction : Bool
  probability : ℚ
  riskLevel : RiskLevel
deriving DecidableEq

/-- The three risk-label strings of the `riskLevel` union type. -/
def riskLevelOfString (s : String) : Option RiskLevel :=
  if s = "Low Risk" then some RiskLevel.low
  else if s = "Moderate Risk" then some RiskLevel.moderate
  else if s = "High Risk" then some RiskLevel.high
  else none

/-- Property lookup on a parsed JSON object. -/
def jlookup (k : String) : List (String × Json) → Option Json
  | [] => none
  | (k2, v) :: rest => if k2 = k then some v else jlookup k rest

/-- Reading a parsed JSON value at the `PredictionResult` interface of
`types.ts` (the consumer-side view of the `as PredictionResult` cast):
`some` exactly when the value has the declared schema shape. -/
def readPredictionResult : Json → Option PredictionResult
  | Json.obj kvs =>
    match jlookup "strokePrediction" kvs, jlookup "probability" kvs,
        jlookup "riskLevel" kvs with
    | some (Json.bool b), some (Json.num p), some (Json.str r) =>
      match riskLevelOfString r with
      | some rl => some { strokePrediction := b, probability := p, riskLevel := rl }
      | none => none
    | _, _, _ => none
  | _ => none

/-- The well-formed reply text of the spec's gateway scenario. -/
def scenarioReplyText : String :=
  "\x7b\"strokePrediction\":true,\"probability\":72,\"riskLevel\":\"High Risk\"\x7d"

/-- The JSON value `JSON.parse` produces on `scenarioReplyText`. -/
def scenarioReplyJson : Json :=
  Json.obj [("strokePrediction", Json.bool true), ("probability", Json.num 72),
    ("riskLevel", Json.str "High Risk")]

/-- A reply text whose probability lies outside [0,100]. -/
def oobReplyText : String :=
  "\x7b\"strokePrediction\":true,\"probability\":150,\"riskLevel\":\"High Risk\"\x7d"

/-- The JSON value `JSON.parse` produces on `oobReplyText`. -/
def oobReplyJson : Json :=
  Json.obj [("strokePrediction", Json.bool true), ("probability", Json.num 150),
    ("riskLevel", Json.str "High Risk")]

/-- A reply text that is valid JSON but does not have the declared
schema shape. -/
def wrongShapeText : String := "\x7b\"a\":1\x7d"

/-- The type of the value held by each `PatientData` field. -/
def FieldType : FieldName → Type
  | FieldName.gender => Gender
  | FieldName.age => Option ℚ
  | FieldName.hypertension => Bool
  | FieldName.heartDisease => Bool
  | FieldName.everMarried => Bool
  | FieldName.workType => WorkType
  | FieldName.residenceType => ResidenceType
  | FieldName.avgGlucoseLevel => Option ℚ
  | FieldName.bmi => Option ℚ
  | FieldName.smokingStatus => SmokingStatus

/-- The computed-key update `{ ...prev, [field]: value }` on `formData`. -/
def setField (d : PatientData) : (f : FieldName) → FieldType f → PatientData
  | FieldName.gender, v => { d with gender := v }
  | FieldName.age, v => { d with age := v }
  | FieldName.hypertension, v => { d with hypertension := v }
  | FieldName.heartDisease, v => { d with heartDisease := v }
  | FieldName.everMarried, v => { d with everMarried := v }
  | FieldName.workType, v => { d with workType := v }
  | FieldName.residenceType, v => { d with residenceType := v }
  | FieldName.avgGlucoseLevel, v => { d with avgGlucoseLevel := v }
  | FieldName.bmi, v => { d with bmi := v }
  | FieldName.smokingStatus, v => { d with smokingStatus := v }

/-- Reading a `PatientData` field by key. -/
def getField (d : PatientData) : (f : FieldName) → FieldType f
  | FieldName.gender => d.gender
  | FieldName.age => d.age
  | FieldName.hypertension => d.hypertension
  | FieldName.heartDisease => d.heartDisease
  | FieldName.everMarried => d.everMarried
  | FieldName.workType => d.workType
  | FieldName.residenceType => d.residenceType
  | FieldName.avgGlucoseLevel => d.avgGlucoseLevel
  | FieldName.bmi => d.bmi
  | FieldName.smokingStatus => d.smokingStatus

/-- The mutable state of the `App` component (`App.tsx` lines 24-40):
`formData`, `result`, `loading`, `error` and `validationErrors`.
`result` holds the value produced by `JSON.parse` (the `as
PredictionResult` cast has no runtime effect), or `none` (JS `null`). -/
structure AppState where
  formData : PatientData
  result : Option Json
  loading : Bool
  error : Option String
  validationErrors : ErrorMap

/-- The initial component state. -/
def initialState : AppState where
  formData := initialFormData
  result := none
  loading := false
  error := none
  validationErrors := fun _ => none

/-- JavaScript truthiness of `validationErrors[field]`: absent (or
`undefined`) and the empty string are falsy. -/
def errTruthy : Option String → Bool
  | none => false
  | some s => if s = "" then false else true

/-- `handleInputChange` from `App.tsx` (lines 42-48): store the new field
value, and clear the field's validation error if one is present. -/
def handleInputChange (s : AppState) (f : FieldName) (v : FieldType f) : AppState :=
  let s1 := { s with formData := setField s.formData f v }
  if errTruthy (s.validationErrors f) then
    { s1 with validationErrors := fun g => if g = f then none else s.validationErrors g }
  else s1

/-- `validateInputs` invoked as the controller operation it is in the
source: it recomputes the error object from `formData`, stores it via
`setValidationErrors`, and reports the `isValid` flag to the caller. -/
def runValidate (s : AppState) : AppState × Bool :=
  let v := validateInputs s.formData
  ({ s with validationErrors := v.1 }, v.2)

/-- The summary message set when validation fails (`App.tsx` line 90). -/
def summaryErrorMsg : String := "Please correct the errors in the highlighted fields."

/-- The generic message set when the gateway fails (`App.tsx` line 100). -/
def genericFailureMsg : String := "Failed to generate prediction. Please try again."

/-- The synchronous prefix of `handleSubmit` (`App.tsx` lines 85-95), up
to the point where the remote call is issued: clear `error` and `result`,
run the validator (which stores the error object); if invalid, set the
summary message and return without calling the gateway; if valid, set
`loading` before awaiting the call.  The returned flag records whether
the remote call is issued. -/
def handleSubmitStart (s : AppState) : AppState × Bool :=
  let s1 := { s with error := none, result := none }
  let v := runValidate s1
  if v.2 then ({ v.1 with loading := true }, true)
  else ({ v.1 with error := some summaryErrorMsg }, false)

/-- The continuation of `handleSubmit` (`App.tsx` lines 96-103) once the
awaited gateway call settles: store the prediction on success, set the
generic message on failure, and clear `loading` in either case (the
`finally` block). -/
def handleSubmitResolve (s : AppState) (outcome : Except JsError Json) : AppState :=
  match outcome with
  | Except.ok j => { s with result := some j, loading := false }
  | Except.error _ => { s with error := some genericFailureMsg, loading := false }

/-- A click on the submit button: the button carries `disabled={loading}`
(`App.tsx` line 289), so the click reaches `handleSubmit` only when
`loading` is false.  The returned flag records whether a remote call is
issued. -/
def submitClick (s : AppState) : AppState × Bool :=
  if s.loading then (s, false) else handleSubmitStart s

/-- One event of the single-threaded UI loop: a form edit, a click on the
submit button, or the settling of the awaited gateway call (which exists
only while a request is in flight, i.e. while `loading` is true). -/
inductive Step : AppState → AppState → Prop
  | input (s : AppState) (f : FieldName) (v : FieldType f) :
      Step s (handleInputChange s f v)
  | click (s : AppState) : Step s (submitClick s).1
  | resolve (s : AppState) (o : Except JsError Json) (hl : s.loading = true) :
      Step s (handleSubmitResolve s o)

/-- Controller invariant: `result` and `error` are never simultaneously
set, and while a request is in flight both are clear. -/
def stateInv (s : AppState) : Prop :=
  (s.result = none ∨ s.error = none) ∧
    (s.loading = true → s.result = none ∧ s.error = none)

lemma handleInputChange_frame (s : AppState) (f : FieldName) (v : FieldType f) :
    (handleInputChange s f v).result = s.result ∧
      (handleInputChange s f v).error = s.error ∧
      (handleInputChange s f v).loading = s.loading := by
  unfold handleInputChange
  split <;> exact ⟨rfl, rfl, rfl⟩

lemma stateInv_step {s t : AppState} (hs : stateInv s) (h : Step s t) : stateInv t := by
  cases h with
  | input f v =>
    obtain ⟨h1, h2, h3⟩ := handleInputChange_frame s f v
    refine ⟨?_, fun hl => ?_⟩
    · rw [h1, h2]; exact hs.1
    · rw [h1, h2]; exact hs.2 (h3 ▸ hl)
  | click =>
    unfold submitClick handleSubmitStart runValidate
    by_cases hl : s.loading = true
    · simpa [hl] using hs
    · simp only [Bool.not_eq_true] at hl
      simp only [hl, Bool.false_eq_true, if_false]
      split
      · exact ⟨Or.inl rfl, fun _ => ⟨rfl, rfl⟩⟩
      · exact ⟨Or.inl rfl, fun h2 => by simp [hl] at h2⟩
  | resolve o hl =>
    obtain ⟨hr, he⟩ := hs.2 hl
    cases o with
    | ok j => exact ⟨Or.inr he, fun h2 => nomatch h2⟩
    | error e => exact ⟨Or.inl hr, fun h2 => nomatch h2⟩

lemma getField_setField_same (d : PatientData) (f : FieldName) (v : FieldType f) :
    getField (setField d f v) f = v := by
  cases f <;> rfl

lemma getField_setField_ne (d : PatientData) (f g : FieldName) (v : FieldType f)
    (hg : g ≠ f) : getField (setField d f v) g = getField d g := by
  cases f <;> cases g <;> first | exact absurd rfl hg | rfl

/-- C1: the Validator reports an error for `age` iff `age` is unset or
non-numeric (the `none` sentinel) or outside [0,120]; likewise for
`avgGlucoseLevel` with [30,600] and for `bmi` with [10,100]; and scenario
A (age 45, glucose 105.5, BMI 28.4, all enums default) yields an empty
error map. -/
theorem validator_field_flags :
    (∀ d : PatientData,
      ((validateInputs d).1 FieldName.age ≠ none ↔
        d.age = none ∨ ∃ v, d.age = some v ∧ (v < 0 ∨ 120 < v)) ∧
      ((validateInputs d).1 FieldName.avgGlucoseLevel ≠ none ↔
        d.avgGlucoseLevel = none ∨ ∃ v, d.avgGlucoseLevel = some v ∧ (v < 30 ∨ 600 < v)) ∧
      ((validateInputs d).1 FieldName.bmi ≠ none ↔
        d.bmi = none ∨ ∃ v, d.bmi = some v ∧ (v < 10 ∨ 100 < v))) ∧
    (∀ f, (validateInputs scenarioA).1 f = none) := by
  constructor
  · intro d
    refine ⟨?_, ?_, ?_⟩
    · rw [validateInputs_age]
      rcases d.age with _ | a
      · simp [ageCheck]
      · simp only [ageCheck]
        split_ifs with h <;> simp [h]
    · rw [validateInputs_glucose]
      rcases d.avgGlucoseLevel with _ | a
      · simp [glucoseCheck]
      · simp only [glucoseCheck]
        split_ifs with h <;> simp [h]
    · rw [validateInputs_bmi]
      rcases d.bmi with _ | a
      · simp [bmiCheck]
      · simp only [bmiCheck]
        split_ifs with h <;> simp [h]
  · intro f
    cases f <;> decide

/-- Witness for `validator_field_flags`: scenario B's age 150 is flagged. -/
theorem validator_field_flags_witness :
    (validateInputs scenarioB).1 FieldName.age ≠ none :=
  (validator_field_flags.1 scenarioB).1.mpr (Or.inr ⟨150, rfl, by norm_num⟩)

/-- C2: on the well-formed reply
`\x7b"strokePrediction":true,"probability":72,"riskLevel":"High Risk"\x7d`
the gateway succeeds with exactly those three values, unmodified; and a
probability outside [0,100] (here 150) also passes through without
re-checking or clamping. -/
theorem gateway_wellformed_reply :
    predictStrokeRisk (RemoteOutcome.returns (some scenarioReplyText)) =
      Except.ok scenarioReplyJson ∧
    readPredictionResult scenarioReplyJson =
      some { strokePrediction := true, probability := 72, riskLevel := RiskLevel.high } ∧
    predictStrokeRisk (RemoteOutcome.returns (some oobReplyText)) =
      Except.ok oobReplyJson ∧
    readPredictionResult oobReplyJson =
      some { strokePrediction := true, probability := 150, riskLevel := RiskLevel.high } :=
  ⟨rfl, rfl, rfl, rfl⟩

/-- Counterexample to C3 as stated: a reply that is valid JSON but
violates the declared schema shape is not rejected with a parse error —
the gateway succeeds, returning the parsed (shape-violating) value. -/
theorem gateway_schema_violation_accepted :
    predictStrokeRisk (RemoteOutcome.returns (some wrongShapeText)) =
      Except.ok (Json.obj [("a", Json.num 1)]) ∧
    readPredictionResult (Json.obj [("a", Json.num 1)]) = none :=
  ⟨rfl, rfl⟩

/-- C3 (amended): the gateway fails in exactly three ways and succeeds
otherwise: (a) a thrown remote error propagates as-is; (b) falsy payload
text (undefined or empty) raises the distinct "no response" error; (c)
text that is not valid JSON raises the parse error unmodified.  Text that
is valid JSON is returned as parsed, even if it violates the declared
schema shape.  The errors for `""` and for `"not json"` are
distinguishable. -/
theorem gateway_failure_modes :
    (∀ e, predictStrokeRisk (RemoteOutcome.throws e) = Except.error e) ∧
    (∀ t, textTruthy t = false →
      predictStrokeRisk (RemoteOutcome.returns t) =
        Except.error (JsError.errorObj noResponseMsg)) ∧
    (∀ s m, jsonParse s = Except.error m → s ≠ "" →
      predictStrokeRisk (RemoteOutcome.returns (some s)) =
        Except.error (JsError.parseError m)) ∧
    (∀ s j, jsonParse s = Except.ok j → s ≠ "" →
      predictStrokeRisk (RemoteOutcome.returns (some s)) = Except.ok j) ∧
    predictStrokeRisk (RemoteOutcome.returns (some "")) ≠
      predictStrokeRisk (RemoteOutcome.returns (some "not json")) := by
  refine ⟨fun e => rfl, fun t ht => ?_, fun s m hp hs => ?_, fun s j hp hs => ?_, ?_⟩
  · simp [predictStrokeRisk, ht]
  · have ht : textTruthy (some s) = true := by simp [textTruthy, hs]
    simp [predictStrokeRisk, ht, hp]
  · have ht : textTruthy (some s) = true := by simp [textTruthy, hs]
    simp [predictStrokeRisk, ht, hp]
  · intro h
    exact JsError.noConfusion (Except.error.inj h)

/-- Witness for `gateway_failure_modes`: the reply `"not json"` fails
with the parse error. -/
theorem gateway_failure_modes_witness :
    (jsonParse "not json" = Except.error jsonParseErrorMsg ∧ "not json" ≠ "") ∧
    predictStrokeRisk (RemoteOutcome.returns (some "not json")) =
      Except.error (JsError.parseError jsonParseErrorMsg) :=
  ⟨⟨rfl, by decide⟩,
    gateway_failure_modes.2.2.1 "not json" jsonParseErrorMsg rfl (by decide)⟩

/-- C4: the Validator is a pure function of `formData`: a second call on
the unchanged input stores the identical error map and reports the same
validity, and a call changes no component state other than the stored
error map. -/
theorem validator_pure (s : AppState) :
    (runValidate (runValidate s).1).1.validationErrors =
      (runValidate s).1.validationErrors ∧
    (runValidate (runValidate s).1).2 = (runValidate s).2 ∧
    (runValidate s).1.formData = s.formData ∧
    (runValidate s).1.result = s.result ∧
    (runValidate s).1.error = s.error ∧
    (runValidate s).1.loading = s.loading :=
  ⟨rfl, rfl, rfl, rfl, rfl, rfl⟩

/-- Witness for `validator_pure` at the initial state. -/
theorem validator_pure_witness :
    (runValidate (runValidate initialState).1).1.validationErrors =
      (runValidate initialState).1.validationErrors :=
  (validator_pure initialState).1

/-- C5: on scenario B (age 150, glucose 700, BMI 5) every one of the
three invalid fields is reported — no short-circuiting — and no other
field has an entry. -/
theorem scenarioB_exactly_three_errors :
    (validateInputs scenarioB).1 FieldName.age =
      some "Please enter a valid age (0-120)." ∧
    (validateInputs scenarioB).1 FieldName.avgGlucoseLevel =
      some "Value must be between 30 and 600 mg/dL." ∧
    (validateInputs scenarioB).1 FieldName.bmi =
      some "Value must be between 10 and 100." ∧
    ∀ f : FieldName, f ≠ FieldName.age → f ≠ FieldName.avgGlucoseLevel →
      f ≠ FieldName.bmi → (validateInputs scenarioB).1 f = none := by
  refine ⟨by decide, by decide, by decide, ?_⟩
  intro f h1 h2 h3
  exact validateInputs_other scenarioB f h1 h2 h3

/-- Witness for `scenarioB_exactly_three_errors`: the gender entry is
absent. -/
theorem scenarioB_exactly_three_errors_witness :
    (validateInputs scenarioB).1 FieldName.gender = none :=
  scenarioB_exactly_three_errors.2.2.2 FieldName.gender (by decide) (by decide)
    (by decide)

/-- C6: the `isValid` flag returned by the Validator is true exactly when
the produced error map is empty. -/
theorem validity_iff_empty_map (d : PatientData) :
    (validateInputs d).2 = true ↔ ∀ f, (validateInputs d).1 f = none := by
  rw [validateInputs_valid]
  constructor
  · intro h f
    rw [Bool.and_eq_true, Bool.and_eq_true] at h
    obtain ⟨⟨ha, hg⟩, hb⟩ := h
    rw [Option.isNone_iff_eq_none] at ha hg hb
    cases f with
    | age => rw [validateInputs_age]; exact ha
    | avgGlucoseLevel => rw [validateInputs_glucose]; exact hg
    | bmi => rw [validateInputs_bmi]; exact hb
    | gender => exact validateInputs_other d _ (by decide) (by decide) (by decide)
    | hypertension => exact validateInputs_other d _ (by decide) (by decide) (by decide)
    | heartDisease => exact validateInputs_other d _ (by decide) (by decide) (by decide)
    | everMarried => exact validateInputs_other d _ (by decide) (by decide) (by decide)
    | workType => exact validateInputs_other d _ (by decide) (by decide) (by decide)
    | residenceType => exact validateInputs_other d _ (by decide) (by decide) (by decide)
    | smokingStatus => exact validateInputs_other d _ (by decide) (by decide) (by decide)
  · intro h
    have ha := h FieldName.age
    have hg := h FieldName.avgGlucoseLevel
    have hb := h FieldName.bmi
    rw [validateInputs_age] at ha
    rw [validateInputs_glucose] at hg
    rw [validateInputs_bmi] at hb
    simp [ha, hg, hb]

/-- Witness for `validity_iff_empty_map`: scenario A is valid. -/
theorem validity_iff_empty_map_witness : (validateInputs scenarioA).2 = true :=
  (validity_iff_empty_map scenarioA).mpr (by decide)

/-- C7: when the Validator reports invalid on a submit from the idle
state, no remote call is issued; the controller stays idle (`loading`
false), stores the per-field error map, sets the summary message, and
leaves `result` clear and `formData` untouched. -/
theorem invalid_submit_stays_idle (s : AppState) (hl : s.loading = false)
    (hv : (validateInputs s.formData).2 = false) :
    (submitClick s).2 = false ∧
    (submitClick s).1.loading = false ∧
    (submitClick s).1.validationErrors = (validateInputs s.formData).1 ∧
    (submitClick s).1.error = some summaryErrorMsg ∧
    (submitClick s).1.result = none ∧
    (submitClick s).1.formData = s.formData := by
  unfold submitClick handleSubmitStart runValidate
  simp only [hl, Bool.false_eq_true, if_false]
  simp only [hv, Bool.false_eq_true, if_false]
  simp [hl]

/-- Witness for `invalid_submit_stays_idle`: submitting the initial
(empty) form issues no remote call. -/
theorem invalid_submit_stays_idle_witness :
    (initialState.loading = false ∧
      (validateInputs initialState.formData).2 = false) ∧
    (submitClick initialState).2 = false :=
  ⟨⟨rfl, by decide⟩, (invalid_submit_stays_idle initialState rfl (by decide)).1⟩

/-- C8: while a request is in flight (`loading` true) the submit button
is disabled, so a further submit — even of a validated input — issues no
second concurrent remote call and changes nothing. -/
theorem no_second_inflight_call (s : AppState) (hl : s.loading = true) :
    submitClick s = (s, false) := by
  unfold submitClick
  rw [hl]
  rfl

/-- A validated form with a request in flight. -/
def inflightState : AppState :=
  { initialState with formData := scenarioA, loading := true }

/-- Witness for `no_second_inflight_call`: a click while `inflightState`
is submitting a validated input issues no call. -/
theorem no_second_inflight_call_witness :
    (inflightState.loading = true ∧
      (validateInputs inflightState.formData).2 = true) ∧
    submitClick inflightState = (inflightState, false) :=
  ⟨⟨rfl, by decide⟩, no_second_inflight_call inflightState rfl⟩

/-- C9: in every controller state reachable from the initial one by form
edits, submit clicks and request resolutions, the stored prediction
result and the stored user-facing error message are never both set. -/
theorem result_error_mutex (s : AppState)
    (h : Relation.ReflTransGen Step initialState s) :
    s.result = none ∨ s.error = none := by
  have inv : stateInv s := by
    induction h with
    | refl => exact ⟨Or.inl rfl, fun h2 => nomatch h2⟩
    | tail h1 h2 ih => exact stateInv_step ih h2
  exact inv.1

/-- Witness for `result_error_mutex` at the initial state. -/
theorem result_error_mutex_witness :
    initialState.result = none ∨ initialState.error = none :=
  result_error_mutex initialState Relation.ReflTransGen.refl

/-- C10: editing one field updates exactly that field's value, clears (at
most) that field's pending validation error, and leaves every other
field value, every other error entry, and the rest of the component
state unchanged. -/
theorem input_change_frame (s : AppState) (f g : FieldName) (v : FieldType f)
    (hg : g ≠ f) :
    getField (handleInputChange s f v).formData f = v ∧
    getField (handleInputChange s f v).formData g = getField s.formData g ∧
    (handleInputChange s f v).validationErrors g = s.validationErrors g ∧
    (errTruthy (s.validationErrors f) = true →
      (handleInputChange s f v).validationErrors f = none) ∧
    (handleInputChange s f v).result = s.result ∧
    (handleInputChange s f v).error = s.error ∧
    (handleInputChange s f v).loading = s.loading := by
  obtain ⟨h1, h2, h3⟩ := handleInputChange_frame s f v
  have hform : (handleInputChange s f v).formData = setField s.formData f v := by
    unfold handleInputChange
    split <;> rfl
  refine ⟨?_, ?_, ?_, ?_, h1, h2, h3⟩
  · rw [hform]
    exact getField_setField_same s.formData f v
  · rw [hform]
    exact getField_setField_ne s.formData f g v hg
  · unfold handleInputChange
    split
    · simp [hg]
    · rfl
  · intro ht
    unfold handleInputChange
    simp [ht]

/-- A state with a pending age error. -/
def pendingAgeErrState : AppState :=
  { initialState with
      validationErrors := setErr (fun _ => none) FieldName.age "Age is required." }

/-- Witness for `input_change_frame`: typing an age of 50 stores the
value, clears the pending age error, and leaves the BMI value alone. -/
theorem input_change_frame_witness :
    (FieldName.bmi ≠ FieldName.age ∧
      errTruthy (pendingAgeErrState.validationErrors FieldName.age) = true) ∧
    getField (handleInputChange pendingAgeErrState FieldName.age (some 50)).formData
      FieldName.age = some 50 ∧
    (handleInputChange pendingAgeErrState FieldName.age (some 50)).validationErrors
      FieldName.age = none :=
  ⟨⟨by decide, by decide⟩,
    (input_change_frame pendingAgeErrState FieldName.age FieldName.bmi (some 50)
      (by decide)).1,
    (input_change_frame pendingAgeErrState FieldName.age FieldName.bmi (some 50)
      (by decide)).2.2.2.1 (by decide)⟩
